import Mathlib

/-!
Verification development for the weather function-calling agent
(`src/agents/tools.py`).

The Python source is shallowly embedded: pure functions become Lean
functions over `ℚ` / `String` / association lists; the external HTTP
calls (geocoding, forecast) and the model-completion endpoint become
oracle parameters of type `Except String _` (an `Except.error e` models
a raised exception, timeout or non-2xx response whose `str(e)` is `e`);
Python exceptions escaping a function are modelled by an
`Except String _` return type; Python dicts become association lists
with Python's insertion-order update semantics.
-/

namespace WeatherAgent

/-! ## Python-style JSON values and dicts

`JVal.null` stands both for JSON `null` and for Python `None` (after
`json.loads` the two coincide).  A Python dict is an association list
with unique keys in insertion order; `{**a, **b}` is `JObj.merge a b`.
-/

inductive JVal where
  | s (v : String)
  | n (v : ℚ)
  | null
deriving DecidableEq, Repr

abbrev JObj := List (String × JVal)

/-- Python `d.get(k)` restricted to returning the stored value when the
key is present (`none` when the key is absent). -/
def JObj.get (o : JObj) (k : String) : Option JVal :=
  (o.find? (fun p => p.1 == k)).map (fun p => p.2)

/-- Python `d[k] = v`: replace in place when the key exists, else append. -/
def dictUpsert (d : JObj) (k : String) (v : JVal) : JObj :=
  if (d.find? (fun p => p.1 == k)).isSome then
    d.map (fun p => if p.1 == k then (k, v) else p)
  else
    d ++ [(k, v)]

/-- Python `{**a, **b}`: keys of `a` in order with values overridden by
`b`, then the remaining keys of `b` appended in order. -/
def JObj.merge (a b : JObj) : JObj :=
  b.foldl (fun d p => dictUpsert d p.1 p.2) a

/-- Python truthiness of the result of `d.get(k)`: absent keys and the
values `None`, `""`, `0` are falsy. -/
def pyTruthy : Option JVal → Bool
  | none => false
  | some .null => false
  | some (.s v) => !(v == "")
  | some (.n q) => !(q == 0)

/-- Python `x is None` for a value obtained from `d.get(k)` (absent key
gives Python `None`, which we conflate with `JVal.null`). -/
def isNoneLike : Option JVal → Bool
  | none => true
  | some .null => true
  | some _ => false

/-- Lift an `Option JVal` (a Python `.get` result) back into a stored
dict value: Python stores `None` where the key was missing. -/
def optJ (x : Option JVal) : JVal := x.getD .null

/-! ## Unit converter

`c_to_f` in the source is `round((c * 9 / 5) + 32, 1)`.  Python `round`
uses round-half-to-even (banker's rounding); we embed the computation
over `ℚ`, which agrees with the source at every input any claim
evaluates. -/

/-- Round-half-to-even of a rational to an integer, as Python `round`
behaves on exact values. -/
def roundHalfEven (q : ℚ) : ℤ :=
  if q - (⌊q⌋ : ℚ) < 1/2 then ⌊q⌋
  else if (1/2 : ℚ) < q - (⌊q⌋ : ℚ) then ⌊q⌋ + 1
  else if ⌊q⌋ % 2 = 0 then ⌊q⌋ else ⌊q⌋ + 1

/-- Python `round(x, 1)` on an exact rational. -/
def pyRound1 (x : ℚ) : ℚ := (roundHalfEven (x * 10) : ℚ) / 10

/-- Source `c_to_f`: `round((c * 9 / 5) + 32, 1)`. -/
def c_to_f (c : ℚ) : ℚ := pyRound1 (c * 9 / 5 + 32)

lemma roundHalfEven_bounds (q : ℚ) :
    ⌊q⌋ ≤ roundHalfEven q ∧ roundHalfEven q ≤ ⌊q⌋ + 1 := by
  unfold roundHalfEven
  split_ifs <;> omega

lemma roundHalfEven_mono {a b : ℚ} (hab : a ≤ b) :
    roundHalfEven a ≤ roundHalfEven b := by
  have hf : ⌊a⌋ ≤ ⌊b⌋ := Int.floor_le_floor hab
  rcases lt_or_eq_of_le hf with hlt | heq
  · have h1 := (roundHalfEven_bounds a).2
    have h2 := (roundHalfEven_bounds b).1
    omega
  · unfold roundHalfEven
    rw [← heq]
    split_ifs with h1 h2 h3 h4 h5 <;> try omega
    all_goals
      first
      | omega
      | (exfalso; push_neg at *; linarith)

lemma pyRound1_mono {a b : ℚ} (hab : a ≤ b) : pyRound1 a ≤ pyRound1 b := by
  unfold pyRound1
  have h : roundHalfEven (a * 10) ≤ roundHalfEven (b * 10) :=
    roundHalfEven_mono (by linarith)
  have h' : ((roundHalfEven (a * 10) : ℤ) : ℚ) ≤ ((roundHalfEven (b * 10) : ℤ) : ℚ) := by
    exact_mod_cast h
  linarith

lemma roundHalfEven_eq_of_lt_half {q : ℚ} {z : ℤ} (h1 : (z : ℚ) ≤ q)
    (h2 : q - (z : ℚ) < 1/2) : roundHalfEven q = z := by
  have hf : ⌊q⌋ = z := Int.floor_eq_iff.mpr ⟨h1, by linarith⟩
  unfold roundHalfEven
  rw [hf, if_pos (by linarith)]

lemma roundHalfEven_eq_of_gt_half {q : ℚ} {z : ℤ} (h1 : (z : ℚ) ≤ q)
    (h2 : (1/2 : ℚ) < q - (z : ℚ)) (h3 : q < (z : ℚ) + 1) : roundHalfEven q = z + 1 := by
  have hf : ⌊q⌋ = z := Int.floor_eq_iff.mpr ⟨h1, by linarith⟩
  unfold roundHalfEven
  rw [hf, if_neg (by linarith), if_pos (by linarith)]

lemma c_to_f_zero : c_to_f 0 = 32 := by
  unfold c_to_f pyRound1
  rw [show ((0 : ℚ) * 9 / 5 + 32) * 10 = 320 by norm_num,
    roundHalfEven_eq_of_lt_half (z := 320) (by norm_num) (by norm_num)]
  norm_num

lemma c_to_f_hundred : c_to_f 100 = 212 := by
  unfold c_to_f pyRound1
  rw [show ((100 : ℚ) * 9 / 5 + 32) * 10 = 2120 by norm_num,
    roundHalfEven_eq_of_lt_half (z := 2120) (by norm_num) (by norm_num)]
  norm_num

lemma c_to_f_minus_17_2 : c_to_f (-17.2) = 1 := by
  unfold c_to_f pyRound1
  rw [show ((-17.2 : ℚ) * 9 / 5 + 32) * 10 = 10.4 by norm_num,
    roundHalfEven_eq_of_lt_half (z := 10) (by norm_num) (by norm_num)]
  norm_num

lemma c_to_f_minus_17_8 : c_to_f (-17.8) = 0 := by
  unfold c_to_f pyRound1
  rw [show ((-17.8 : ℚ) * 9 / 5 + 32) * 10 = -0.4 by norm_num,
    roundHalfEven_eq_of_gt_half (z := -1) (by norm_num) (by norm_num) (by norm_num)]
  norm_num

/-- C8 counterexample: the claim states that `c_to_f (-17.2)` rounds to
`-0.0`; on the code `-17.2 °C` is `1.04 °F`, which rounds to `1.0`
(nonzero under any reading of `-0.0`). -/
theorem C8_counterexample : c_to_f (-17.2) = 1 ∧ c_to_f (-17.2) ≠ 0 := by
  refine ⟨c_to_f_minus_17_2, ?_⟩
  rw [c_to_f_minus_17_2]
  norm_num

/-- C8 (amended): `c_to_f c` equals `c * 9/5 + 32` rounded half-to-even to
one decimal place, the function is monotone, and the concrete examples
hold with the claim's `-17.2 → -0.0` corrected to `-17.2 → 1.0` (the
near-zero edge case arises at `-17.8`, which rounds to zero, displayed
`-0.0` by Python floats). -/
theorem C8_c_to_f_rounding (c c' : ℚ) (h : c ≤ c') :
    c_to_f c = (roundHalfEven ((c * 9 / 5 + 32) * 10) : ℚ) / 10 ∧
    c_to_f c ≤ c_to_f c' ∧
    c_to_f 0 = 32 ∧
    c_to_f 100 = 212 ∧
    c_to_f (-17.2) = 1 ∧
    c_to_f (-17.8) = 0 :=
  ⟨rfl, pyRound1_mono (by linarith), c_to_f_zero, c_to_f_hundred,
    c_to_f_minus_17_2, c_to_f_minus_17_8⟩

/-- Witness for C8 at the concrete pair `0 ≤ 100`. -/
theorem C8_c_to_f_rounding_witness :
    (0 : ℚ) ≤ 100 ∧ c_to_f 0 ≤ c_to_f 100 :=
  ⟨by norm_num, (C8_c_to_f_rounding 0 100 (by norm_num)).2.1⟩

/-! ## Geo resolver and forecast fetcher

The external HTTP layer is abstracted as oracles.  An oracle success
carries the response payload restricted to the boundary shape of §6 of
the spec (a list of candidate-match objects for geocoding; a current
block with optional temperature and timestamp for forecast); an oracle
error `e` models any raised exception, timeout or `raise_for_status`
failure with `str(e) = e`.  Everything from the parsed payload onward
is translated from the source. -/

/-- Geocoding response: `data.get("results")` — `none` models both an
absent and an empty/falsy `results` key. -/
structure GeoData where
  results : Option (List JObj)
deriving DecidableEq, Repr

/-- Forecast response: the fields the source reads from
`payload.get("current", {})` — an absent `current` block behaves exactly
like an absent temperature, so both are `temperature_2m = none`. -/
structure WxData where
  temperature_2m : Option ℚ
  time : Option JVal
deriving DecidableEq, Repr

/-- Source `geocode_city`: resolve a city name via the geocoding oracle.
The `except Exception` branch returns `{"error": str(e), "city": city}`. -/
def geocode_city (gh : String → Except String GeoData) (city : String) : JObj :=
  match gh city with
  | .error e => [("error", .s e), ("city", .s city)]
  | .ok data =>
    let first : JObj :=
      match data.results with
      | some (o :: _) => o
      | _ => []
    if first.isEmpty then
      [("error", .s "city_not_found"), ("city", .s city)]
    else
      [("city", .s city),
       ("resolved_name", optJ (first.get "name")),
       ("country", optJ (first.get "country")),
       ("latitude", optJ (first.get "latitude")),
       ("longitude", optJ (first.get "longitude"))]

/-- Source `fetch_weather`: retrieve the current temperature for the
given coordinates (the coordinate values are whatever `geo.get` handed
over).  The `except Exception` branch returns
`{"error": str(e), "latitude": ..., "longitude": ...}`. -/
def fetch_weather (wh : JVal → JVal → Except String WxData)
    (latitude longitude : JVal) : JObj :=
  match wh latitude longitude with
  | .error e => [("error", .s e), ("latitude", latitude), ("longitude", longitude)]
  | .ok payload =>
    match payload.temperature_2m with
    | none =>
      [("error", .s "temperature_unavailable"),
       ("latitude", latitude), ("longitude", longitude)]
    | some temp_c =>
      [("latitude", latitude), ("longitude", longitude),
       ("temperature_c", .n temp_c), ("temperature_f", .n (c_to_f temp_c)),
       ("timestamp", optJ payload.time)]

/-- Source `get_weather_by_city`, instrumented with a flag recording
whether `fetch_weather` was invoked.  The projection dropping the flag
is the plain translation. -/
def get_weather_by_city_t (gh : String → Except String GeoData)
    (wh : JVal → JVal → Except String WxData) (city : String) : JObj × Bool :=
  let geo := geocode_city gh city
  if pyTruthy (geo.get "error") then
    (JObj.merge [("city", .s city)] geo, false)
  else
    let lat := geo.get "latitude"
    let lon := geo.get "longitude"
    if isNoneLike lat || isNoneLike lon then
      (JObj.merge [("city", .s city), ("error", .s "coordinates_missing")] geo, false)
    else
      let weather := fetch_weather wh (optJ lat) (optJ lon)
      (JObj.merge (JObj.merge [("city", .s city)] geo) weather, true)

/-- Source `get_weather_by_city` (result only). -/
def get_weather_by_city (gh : String → Except String GeoData)
    (wh : JVal → JVal → Except String WxData) (city : String) : JObj :=
  (get_weather_by_city_t gh wh city).1

/-! ## Tool dispatcher

`execute_tool(name, args)` forwards `**args` to `get_weather_by_city`;
Python raises `TypeError` when the keyword arguments do not bind the
single required parameter `city` exactly, and that exception escapes
`execute_tool` (there is no handler).  We model raising with
`Except.error`. -/

abbrev ArgMap := List (String × String)

/-- Keyword binding of `**args` against the parameter list `(city)`:
succeeds only when the argument keys are exactly `["city"]`. -/
def kwBindCity (args : ArgMap) : Option String :=
  match args with
  | [("city", v)] => some v
  | _ => none

/-- The text standing for the Python `TypeError` raised by a failed
keyword binding. -/
def typeErrorMsg : String :=
  "TypeError: get_weather_by_city() keyword arguments do not match (city)"

/-- Source `execute_tool`. -/
def execute_tool (gh : String → Except String GeoData)
    (wh : JVal → JVal → Except String WxData)
    (name : String) (args : ArgMap) : Except String JObj :=
  if name = "get_weather_by_city" then
    match kwBindCity args with
    | some city => .ok (get_weather_by_city gh wh city)
    | none => .error typeErrorMsg
  else
    .ok [("error", .s "unknown_tool"), ("name", .s name)]

/-- Geocoding oracle that always fails with error text "boom". -/
def ghBoom : String → Except String GeoData := fun _ => .error "boom"

/-- Forecast oracle that always fails with error text "boom". -/
def whBoom : JVal → JVal → Except String WxData := fun _ _ => .error "boom"

/-- Geocoding oracle returning an empty result list (city not found). -/
def ghNotFound : String → Except String GeoData := fun _ => .ok ⟨some []⟩

/-- Forecast oracle returning 20 °C (used to detect invocation). -/
def whProbe : JVal → JVal → Except String WxData :=
  fun _ _ => .ok ⟨some 20, some (.s "2024-01-01T00:00")⟩

/-- C4 counterexample: on a transport error with text "boom",
`geocode_city` returns `{"error": "boom", "city": ...}` — the failure
carries no `stage` field and no value equal to `"transport"` anywhere,
so the claim that the failure's tag (stage) is `transport` is false. -/
theorem C4_counterexample :
    geocode_city ghBoom "Paris" = [("error", .s "boom"), ("city", .s "Paris")] ∧
    (geocode_city ghBoom "Paris").get "stage" = none ∧
    JVal.s "transport" ∉ (geocode_city ghBoom "Paris").map Prod.snd := by
  refine ⟨rfl, rfl, ?_⟩
  decide

/-- C4 (amended): when the external call raises, times out or returns a
non-2xx status (all surfaced by the oracle as `Except.error e` with
`str(e) = e`), `geocode_city` and `fetch_weather` return — never raise —
a failure dict whose `error` field carries the underlying error text
directly; no separate `"transport"` stage tag is attached to the value. -/
theorem C4_transport_error_text (gh : String → Except String GeoData)
    (wh : JVal → JVal → Except String WxData) (city e : String) (lat lon : JVal)
    (hg : gh city = .error e) (hw : wh lat lon = .error e) :
    geocode_city gh city = [("error", .s e), ("city", .s city)] ∧
    fetch_weather wh lat lon = [("error", .s e), ("latitude", lat), ("longitude", lon)] := by
  constructor
  · unfold geocode_city
    rw [hg]
  · unfold fetch_weather
    rw [hw]

/-- Witness for C4 at a concrete failing oracle. -/
theorem C4_transport_error_text_witness :
    ghBoom "Paris" = .error "boom" ∧
    geocode_city ghBoom "Paris" = [("error", .s "boom"), ("city", .s "Paris")] ∧
    fetch_weather whBoom (.n 1) (.n 2) =
      [("error", .s "boom"), ("latitude", .n 1), ("longitude", .n 2)] := by
  refine ⟨rfl, ?_, ?_⟩
  · exact (C4_transport_error_text ghBoom whBoom "Paris" "boom" (.n 1) (.n 2) rfl rfl).1
  · exact (C4_transport_error_text ghBoom whBoom "Paris" "boom" (.n 1) (.n 2) rfl rfl).2

/-- C5 counterexample: `execute_tool` for the recognized tool raises a
`TypeError` (modelled as `Except.error`) when the argument mapping omits
`city` or carries an extra key — refuting "never raises for every
argument mapping". -/
theorem C5_counterexample :
    execute_tool ghBoom whBoom "get_weather_by_city" [] = .error typeErrorMsg ∧
    execute_tool ghBoom whBoom "get_weather_by_city" [("city", "Paris"), ("units", "C")] =
      .error typeErrorMsg :=
  ⟨rfl, rfl⟩

/-- C5 (amended): `execute_tool` returns a (serializable) result value
and never raises whenever the tool name is unrecognized, or the
recognized tool's arguments bind exactly the required `city` parameter;
with `city` missing or extra keys present a `TypeError` propagates. -/
theorem C5_execute_tool_total (gh : String → Except String GeoData)
    (wh : JVal → JVal → Except String WxData) (name : String) (args : ArgMap)
    (h : name ≠ "get_weather_by_city" ∨ args.map Prod.fst = ["city"]) :
    ∃ r : JObj, execute_tool gh wh name args = .ok r := by
  unfold execute_tool
  rcases h with h | h
  · rw [if_neg h]
    exact ⟨_, rfl⟩
  · match args, h with
    | [(k, v)], h =>
      have hk : k = "city" := by simpa using h
      subst hk
      by_cases hn : name = "get_weather_by_city"
      · rw [if_pos hn]
        exact ⟨_, rfl⟩
      · rw [if_neg hn]
        exact ⟨_, rfl⟩

/-- Witness for C5 at a concrete well-formed dispatch. -/
theorem C5_execute_tool_total_witness :
    ([("city", "Paris")] : ArgMap).map Prod.fst = ["city"] ∧
    ∃ r : JObj, execute_tool ghBoom whBoom "get_weather_by_city" [("city", "Paris")] = .ok r :=
  ⟨rfl, C5_execute_tool_total ghBoom whBoom "get_weather_by_city" [("city", "Paris")]
    (Or.inr rfl)⟩

/-- C6 counterexample: on a not-found geocode result the dispatcher does
short-circuit (`fetch_weather` never invoked) and the failure's error
text is `"city_not_found"`, but no `stage` field exists and no value
equals `"geocode"`, so "the returned failure's stage equals geocode" is
false as stated. -/
theorem C6_counterexample :
    (get_weather_by_city_t ghNotFound whProbe "Atlantis").2 = false ∧
    (get_weather_by_city_t ghNotFound whProbe "Atlantis").1.get "error" =
      some (.s "city_not_found") ∧
    (get_weather_by_city_t ghNotFound whProbe "Atlantis").1.get "stage" = none ∧
    JVal.s "geocode" ∉ (get_weather_by_city_t ghNotFound whProbe "Atlantis").1.map Prod.snd := by
  refine ⟨rfl, rfl, rfl, ?_⟩
  decide

/-- C6 (amended): whenever the geocoding stage returns a (truthy)
failure, `get_weather_by_city` returns without ever invoking
`fetch_weather`, and the returned failure's `error` field propagates the
geocode failure's error text unchanged (e.g. `"city_not_found"`). -/
theorem C6_geocode_short_circuit (gh : String → Except String GeoData)
    (wh : JVal → JVal → Except String WxData) (city : String)
    (h : pyTruthy ((geocode_city gh city).get "error") = true) :
    (get_weather_by_city_t gh wh city).2 = false ∧
    (get_weather_by_city_t gh wh city).1.get "error" = (geocode_city gh city).get "error" := by
  unfold get_weather_by_city_t
  cases hgh : gh city with
  | error e =>
    have hgeo : geocode_city gh city = [("error", .s e), ("city", .s city)] := by
      unfold geocode_city
      rw [hgh]
    rw [hgeo] at h ⊢
    rw [if_pos h]
    exact ⟨rfl, rfl⟩
  | ok data =>
    have hcases : geocode_city gh city = [("error", .s "city_not_found"), ("city", .s city)] ∨
        (geocode_city gh city).get "error" = none := by
      unfold geocode_city
      rw [hgh]
      rcases data with ⟨_ | ⟨_ | ⟨o, rest⟩⟩⟩
      · exact Or.inl rfl
      · exact Or.inl rfl
      · cases o with
        | nil => exact Or.inl rfl
        | cons p ps => exact Or.inr rfl
    rcases hcases with hgeo | hgeo
    · rw [hgeo] at h ⊢
      rw [if_pos h]
      exact ⟨rfl, rfl⟩
    · rw [hgeo] at h
      simp [pyTruthy] at h

/-- Witness for C6 at the concrete not-found oracle. -/
theorem C6_geocode_short_circuit_witness :
    pyTruthy ((geocode_city ghNotFound "Oz").get "error") = true ∧
    (get_weather_by_city_t ghNotFound whProbe "Oz").2 = false ∧
    (get_weather_by_city_t ghNotFound whProbe "Oz").1.get "error" =
      some (.s "city_not_found") := by
  refine ⟨rfl, (C6_geocode_short_circuit ghNotFound whProbe "Oz" rfl).1, ?_⟩
  exact (C6_geocode_short_circuit ghNotFound whProbe "Oz" rfl).2.trans rfl

/-! ## Usage accumulator

A model completion carries an optional usage block whose fields may each
be absent; `getattr(u, field, 0)` on an absent attribute (or on an
entirely absent usage block, i.e. `u = None`) yields 0. -/

/-- The nested `completion_tokens_details` object. -/
structure TokenDetails where
  reasoning_tokens : Option ℕ
deriving DecidableEq, Repr

/-- The `usage` block of a completion, every field possibly absent. -/
structure UsageObj where
  prompt_tokens : Option ℕ
  completion_tokens : Option ℕ
  total_tokens : Option ℕ
  completion_tokens_details : Option TokenDetails
deriving DecidableEq, Repr

/-- The record `extract_usage` builds. -/
structure UsageRec where
  prompt : ℕ
  completion : ℕ
  reasoning : ℕ
  total : ℕ
deriving DecidableEq, Repr

/-- A tool invocation inside a model message: `tc.id`, `tc.function.name`
and `tc.function.arguments` (the string payload after `json.loads`, or
`none` for an empty/falsy arguments string, which the source maps
to `{}`). -/
structure ToolCallMsg where
  id : String
  fname : String
  arguments : Option ArgMap
deriving DecidableEq, Repr

/-- `completion.choices[0].message`: a Python `tool_calls` of `None` and
of `[]` are both falsy, so both are the empty list here. -/
structure ModelMsg where
  content : Option String
  tool_calls : List ToolCallMsg
deriving DecidableEq, Repr

/-- A model completion restricted to the fields the source reads. -/
structure Completion where
  usage : Option UsageObj
  message : ModelMsg
deriving DecidableEq, Repr

/-- Source `extract_usage`. -/
def extract_usage (c : Completion) : UsageRec :=
  let u := c.usage
  let details : Option TokenDetails :=
    match u with
    | none => none
    | some uo => uo.completion_tokens_details
  let reasoning : ℕ :=
    match details with
    | none => 0
    | some d => d.reasoning_tokens.getD 0
  { prompt :=
      match u with
      | none => 0
      | some uo => uo.prompt_tokens.getD 0
    completion :=
      match u with
      | none => 0
      | some uo => uo.completion_tokens.getD 0
    reasoning := reasoning
    total :=
      match u with
      | none => 0
      | some uo => uo.total_tokens.getD 0 }

/-- Component-wise addition of usage records. -/
def UsageRec.add (a b : UsageRec) : UsageRec :=
  ⟨a.prompt + b.prompt, a.completion + b.completion,
   a.reasoning + b.reasoning, a.total + b.total⟩

/-- Component-wise sum of a list of usage records. -/
def recSum : List UsageRec → UsageRec
  | [] => ⟨0, 0, 0, 0⟩
  | u :: rest => u.add (recSum rest)

lemma recSum_append (a b : List UsageRec) :
    recSum (a ++ b) = (recSum a).add (recSum b) := by
  induction a with
  | nil => simp [recSum, UsageRec.add]
  | cons u rest ih =>
    show recSum (u :: (rest ++ b)) = (recSum (u :: rest)).add (recSum b)
    simp only [recSum, ih, UsageRec.add, UsageRec.mk.injEq]
    omega

/-! ## Conversation state machine

The transcript is the `messages` list; the four session counters mirror
the `total_*` variables of `conversation_loop`.  The per-turn oracle
supplies what the two `client.chat.completions.create` calls return
(`Except.error e` models the call raising, which the source does not
catch).  `StepOut.crash` / `SessionEnd.crashed` model the uncaught
exception propagating out of `conversation_loop`; the `List UsageRec`
in the outcomes records the usage lines printed (folded) so far. -/

/-- One recorded tool call inside an appended assistant turn (the
constant `"type": "function"` field is omitted). -/
structure CallRec where
  id : String
  fname : String
  args : ArgMap
deriving DecidableEq, Repr

/-- One transcript entry. -/
inductive Turn where
  | system (content : String)
  | user (content : String)
  | assistantCalls (tool_calls : List CallRec)
  | tool (tool_call_id : String) (content : JObj)
  | assistantText (content : Option String)
deriving DecidableEq, Repr

/-- The correlation id of a tool turn, `none` for any other role. -/
def toolCallIdOf : Turn → Option String
  | .tool cid _ => some cid
  | _ => none

/-- Python `args.setdefault(k, v)` (result value ignored by the source). -/
def setdefault (d : ArgMap) (k v : String) : ArgMap :=
  if (d.find? (fun p => p.1 == k)).isSome then d else d ++ [(k, v)]

/-- The argument normalization the loop applies before dispatch:
`json.loads(fn.arguments) if fn.arguments else {}` followed by
`args.setdefault("city", city_query)`. -/
def normArgs (q : String) (tc : ToolCallMsg) : ArgMap :=
  setdefault (tc.arguments.getD []) "city" q

/-- The `for tc in msg.tool_calls` loop: build the assistant turn's
`tool_calls` records and the tool output turns, in order; a `TypeError`
raised by `execute_tool` aborts the whole loop (nothing is appended). -/
def runTools (gh : String → Except String GeoData)
    (wh : JVal → JVal → Except String WxData) (q : String) :
    List ToolCallMsg → Except String (List CallRec × List Turn)
  | [] => .ok ([], [])
  | tc :: rest =>
    match execute_tool gh wh tc.fname (normArgs q tc) with
    | .error e => .error e
    | .ok result =>
      match runTools gh wh q rest with
      | .error e => .error e
      | .ok (crs, touts) =>
        .ok (⟨tc.id, tc.fname, normArgs q tc⟩ :: crs, Turn.tool tc.id result :: touts)

/-- The loop's mutable state: transcript plus the four counters. -/
structure LoopState where
  messages : List Turn
  total_prompt : ℕ
  total_completion : ℕ
  total_reasoning : ℕ
  total_tokens : ℕ
deriving DecidableEq, Repr

/-- Fold one usage record into the counters (the four `+=` lines). -/
def addUsage (s : LoopState) (u : UsageRec) : LoopState :=
  { s with
    total_prompt := s.total_prompt + u.prompt
    total_completion := s.total_completion + u.completion
    total_reasoning := s.total_reasoning + u.reasoning
    total_tokens := s.total_tokens + u.total }

/-- The counters of a state as one record. -/
def totalsOf (s : LoopState) : UsageRec :=
  ⟨s.total_prompt, s.total_completion, s.total_reasoning, s.total_tokens⟩

/-- What the two model calls of one turn return. -/
structure TurnOracle where
  first : Except String Completion
  second : Except String Completion
deriving Repr

/-- Outcome of processing one non-command user input. -/
inductive StepOut where
  | ok (s : LoopState) (printed : List UsageRec)
  | crash (e : String) (s : LoopState) (printed : List UsageRec)
deriving DecidableEq, Repr

/-- Processing of one user turn (the body of the `while` loop after
command handling), translated line by line from the source:
append the user turn, make the first call, fold usage, then either the
tool round (assistant shell + tool turns + second call + final assistant
turn) or the direct answer. -/
def doTurn (gh : String → Except String GeoData)
    (wh : JVal → JVal → Except String WxData)
    (s : LoopState) (q : String) (o : TurnOracle) : StepOut :=
  let s1 : LoopState := { s with messages := s.messages ++ [Turn.user q] }
  match o.first with
  | .error e => .crash e s1 []
  | .ok first =>
    let u1 := extract_usage first
    let s2 := addUsage s1 u1
    let msg := first.message
    if msg.tool_calls.isEmpty then
      .ok { s2 with messages := s2.messages ++ [Turn.assistantText msg.content] } [u1]
    else
      match runTools gh wh q msg.tool_calls with
      | .error e => .crash e s2 [u1]
      | .ok (crs, touts) =>
        let s3 := { s2 with
          messages := (s2.messages ++ [Turn.assistantCalls crs]) ++ touts }
        match o.second with
        | .error e => .crash e s3 [u1]
        | .ok second =>
          let u2 := extract_usage second
          let s4 := addUsage s3 u2
          .ok { s4 with
            messages := s4.messages ++ [Turn.assistantText second.message.content] }
            [u1, u2]

/-- Classification of one console input line. -/
inductive Cmd where
  | quitSession
  | helpMenu
  | query (q : String)
deriving DecidableEq, Repr

/-- Python whitespace characters stripped by `str.strip()` (ASCII part). -/
def pyIsSpace (c : Char) : Bool :=
  c = ' ' || c = '\t' || c = '\n' || c = '\x0d' || c = '\x0b' || c = '\x0c'

/-- Python `str.strip()`. -/
def pyStrip (s : String) : String :=
  ⟨((s.data.dropWhile pyIsSpace).reverse.dropWhile pyIsSpace).reverse⟩

/-- Python `str.lower()` (ASCII part). -/
def pyLower (s : String) : String :=
  ⟨s.data.map Char.toLower⟩

/-- The recognized leave commands. -/
def exitTokens : List String := ["/exit", "exit", "quit", ":q"]

/-- The recognized help commands. -/
def helpTokens : List String := ["/help", "help", "?"]

/-- The source's command handling: strip the raw line; a blank result or
a recognized (lowercased) leave token breaks the loop; a help token
prints guidance and continues; anything else is the city query. -/
def classify (raw : String) : Cmd :=
  let q := pyStrip raw
  if q = "" then .quitSession
  else
    let lower := pyLower q
    if lower ∈ exitTokens then .quitSession
    else if lower ∈ helpTokens then .helpMenu
    else .query q

/-- One console line together with what the model calls of that turn
would return. -/
structure TurnIn where
  raw : String
  oracle : TurnOracle
deriving Repr

/-- Session outcome: `closed` is the normal exit (break / end of input,
followed by the totals summary); `crashed` is an uncaught exception
escaping `conversation_loop`. -/
inductive SessionEnd where
  | closed (s : LoopState) (recs : List UsageRec)
  | crashed (e : String) (s : LoopState) (recs : List UsageRec)
deriving DecidableEq, Repr

/-- The loop state at session end. -/
def SessionEnd.state : SessionEnd → LoopState
  | .closed s _ => s
  | .crashed _ s _ => s

/-- All usage records folded during the session. -/
def SessionEnd.recs : SessionEnd → List UsageRec
  | .closed _ r => r
  | .crashed _ _ r => r

/-- The `while True` loop of `conversation_loop` over a list of console
inputs (end of list = `EOFError` = break). -/
def runSession (gh : String → Except String GeoData)
    (wh : JVal → JVal → Except String WxData)
    (s : LoopState) (acc : List UsageRec) : List TurnIn → SessionEnd
  | [] => .closed s acc
  | t :: rest =>
    match classify t.raw with
    | .quitSession => .closed s acc
    | .helpMenu => runSession gh wh s acc rest
    | .query q =>
      match doTurn gh wh s q t.oracle with
      | .ok s' pr => runSession gh wh s' (acc ++ pr) rest
      | .crash e s' pr => .crashed e s' (acc ++ pr)

/-- The system prompt of `conversation_loop`. -/
def sysPrompt : String :=
  "You are a concise weather assistant. To answer weather questions, call the function get_weather_by_city with a city name (optionally with region/country). After tool results are provided, summarize ONLY the current temperature in °F and location name in one short sentence."

/-- The state at session start: one system turn, all counters zero. -/
def initState : LoopState := ⟨[Turn.system sysPrompt], 0, 0, 0, 0⟩

/-- The loop state reached by one turn, crash or not. -/
def StepOut.state : StepOut → LoopState
  | .ok s _ => s
  | .crash _ s _ => s

/-- The usage records folded during one turn, crash or not. -/
def StepOut.printed : StepOut → List UsageRec
  | .ok _ pr => pr
  | .crash _ _ pr => pr

lemma UsageRec.add_zero (a : UsageRec) : a.add ⟨0, 0, 0, 0⟩ = a := by
  simp [UsageRec.add]

lemma UsageRec.add_assoc (a b c : UsageRec) :
    (a.add b).add c = a.add (b.add c) := by
  simp only [UsageRec.add, UsageRec.mk.injEq]
  omega

lemma runTools_ok_spec (gh : String → Except String GeoData)
    (wh : JVal → JVal → Except String WxData) (q : String) :
    ∀ (tcs : List ToolCallMsg) (crs : List CallRec) (touts : List Turn),
    runTools gh wh q tcs = .ok (crs, touts) →
    crs = tcs.map (fun tc => ⟨tc.id, tc.fname, normArgs q tc⟩) ∧
    touts.map toolCallIdOf = tcs.map (fun tc => some tc.id) ∧
    List.Forall₂ (fun tc t => ∃ r, execute_tool gh wh tc.fname (normArgs q tc) = .ok r ∧
      t = Turn.tool tc.id r) tcs touts := by
  intro tcs
  induction tcs with
  | nil =>
    intro crs touts h
    simp only [runTools, Except.ok.injEq, Prod.mk.injEq] at h
    obtain ⟨rfl, rfl⟩ := h
    exact ⟨rfl, rfl, List.Forall₂.nil⟩
  | cons tc rest ih =>
    intro crs touts h
    simp only [runTools] at h
    cases hex : execute_tool gh wh tc.fname (normArgs q tc) with
    | error e => rw [hex] at h; exact absurd h (by simp)
    | ok r =>
      rw [hex] at h
      cases hrec : runTools gh wh q rest with
      | error e => rw [hrec] at h; exact absurd h (by simp)
      | ok p =>
        obtain ⟨crs', touts'⟩ := p
        rw [hrec] at h
        simp only [Except.ok.injEq, Prod.mk.injEq] at h
        obtain ⟨rfl, rfl⟩ := h
        obtain ⟨ih1, ih2, ih3⟩ := ih crs' touts' hrec
        refine ⟨by rw [ih1]; rfl, ?_, List.Forall₂.cons ⟨r, hex, rfl⟩ ih3⟩
        simp [toolCallIdOf, ih2]

lemma isEmpty_false_of_ne_nil {α : Type} {l : List α} (h : l ≠ []) :
    l.isEmpty = false := by
  cases l with
  | nil => exact absurd rfl h
  | cons a t => rfl

/-- Shape of a completed two-call (tool path) turn: the exact state and
printed usage records `doTurn` produces. -/
lemma doTurn_tool_path (gh : String → Except String GeoData)
    (wh : JVal → JVal → Except String WxData)
    (s : LoopState) (q : String) (o : TurnOracle)
    (first sec : Completion) (crs : List CallRec) (touts : List Turn)
    (h1 : o.first = .ok first)
    (h2 : first.message.tool_calls ≠ [])
    (h3 : runTools gh wh q first.message.tool_calls = .ok (crs, touts))
    (h4 : o.second = .ok sec) :
    doTurn gh wh s q o = .ok
      { messages := s.messages ++ [Turn.user q, Turn.assistantCalls crs] ++ touts
          ++ [Turn.assistantText sec.message.content],
        total_prompt := s.total_prompt + (extract_usage first).prompt + (extract_usage sec).prompt,
        total_completion :=
          s.total_completion + (extract_usage first).completion + (extract_usage sec).completion,
        total_reasoning :=
          s.total_reasoning + (extract_usage first).reasoning + (extract_usage sec).reasoning,
        total_tokens := s.total_tokens + (extract_usage first).total + (extract_usage sec).total }
      [extract_usage first, extract_usage sec] := by
  unfold doTurn
  rw [h1]
  simp only [isEmpty_false_of_ne_nil h2, Bool.false_eq_true, if_false, h3, h4, addUsage]
  simp [List.append_assoc]

/-- Totals bookkeeping of one turn: whatever the outcome, the counters
grow by exactly the sum of the printed records. -/
lemma doTurn_totals (gh : String → Except String GeoData)
    (wh : JVal → JVal → Except String WxData)
    (s : LoopState) (q : String) (o : TurnOracle) :
    totalsOf ((doTurn gh wh s q o).state) =
      (totalsOf s).add (recSum ((doTurn gh wh s q o).printed)) := by
  unfold doTurn
  cases o.first with
  | error e =>
    simp [StepOut.state, StepOut.printed, totalsOf, recSum, UsageRec.add]
  | ok first =>
    cases hEmpty : first.message.tool_calls.isEmpty
    · simp only [hEmpty, Bool.false_eq_true, if_false]
      cases hrt : runTools gh wh q first.message.tool_calls with
      | error e =>
        simp [StepOut.state, StepOut.printed, totalsOf, recSum, addUsage,
          UsageRec.add, UsageRec.mk.injEq]
      | ok p =>
        obtain ⟨crs, touts⟩ := p
        cases o.second with
        | error e =>
          simp [StepOut.state, StepOut.printed, totalsOf, recSum, addUsage,
            UsageRec.add, UsageRec.mk.injEq]
        | ok sec =>
          simp only [StepOut.state, StepOut.printed, totalsOf, recSum, addUsage,
            UsageRec.add, UsageRec.mk.injEq]
          omega
    · simp [hEmpty, StepOut.state, StepOut.printed, totalsOf, recSum, addUsage,
        UsageRec.add, UsageRec.mk.injEq]

/-- The `acc` accumulator only prefixes the final record list; it never
influences the final state. -/
lemma runSession_acc (gh : String → Except String GeoData)
    (wh : JVal → JVal → Except String WxData) :
    ∀ (ins : List TurnIn) (s : LoopState) (acc : List UsageRec),
    (runSession gh wh s acc ins).state = (runSession gh wh s [] ins).state ∧
    (runSession gh wh s acc ins).recs = acc ++ (runSession gh wh s [] ins).recs := by
  intro ins
  induction ins with
  | nil => intro s acc; simp [runSession, SessionEnd.state, SessionEnd.recs]
  | cons t rest ih =>
    intro s acc
    simp only [runSession]
    cases hcl : classify t.raw with
    | quitSession => exact ⟨rfl, by simp [SessionEnd.recs]⟩
    | helpMenu => exact ih s acc
    | query q =>
      dsimp only
      cases hdt : doTurn gh wh s q t.oracle with
      | ok s' pr =>
        simp only [List.nil_append]
        obtain ⟨ha1, ha2⟩ := ih s' (acc ++ pr)
        obtain ⟨hb1, hb2⟩ := ih s' pr
        refine ⟨by rw [ha1, hb1], ?_⟩
        rw [ha2, hb2]
        simp [List.append_assoc]
      | crash e s' pr =>
        exact ⟨rfl, by simp [SessionEnd.recs]⟩

/-- Session-level totals invariant (started with an empty accumulator). -/
lemma runSession_totals (gh : String → Except String GeoData)
    (wh : JVal → JVal → Except String WxData) :
    ∀ (ins : List TurnIn) (s : LoopState),
    totalsOf ((runSession gh wh s [] ins).state) =
      (totalsOf s).add (recSum ((runSession gh wh s [] ins).recs)) := by
  intro ins
  induction ins with
  | nil => intro s; simp [runSession, SessionEnd.state, SessionEnd.recs, recSum, UsageRec.add_zero]
  | cons t rest ih =>
    intro s
    simp only [runSession]
    cases hcl : classify t.raw with
    | quitSession =>
      simp [SessionEnd.state, SessionEnd.recs, recSum, UsageRec.add_zero]
    | helpMenu => exact ih s
    | query q =>
      dsimp only
      cases hdt : doTurn gh wh s q t.oracle with
      | ok s' pr =>
        simp only [List.nil_append]
        have hT : totalsOf s' = (totalsOf s).add (recSum pr) := by
          have := doTurn_totals gh wh s q t.oracle
          rw [hdt] at this
          exact this
        obtain ⟨ha1, ha2⟩ := runSession_acc gh wh rest s' pr
        rw [ha1, ha2, recSum_append, ih s', hT, UsageRec.add_assoc]
      | crash e s' pr =>
        dsimp only [SessionEnd.state, SessionEnd.recs]
        have hT : totalsOf s' = (totalsOf s).add (recSum pr) := by
          have := doTurn_totals gh wh s q t.oracle
          rw [hdt] at this
          exact this
        exact hT

/-! ## Concrete fixtures used by witnesses and counterexamples -/

/-- First-call completion requesting one tool call with arguments `{}`. -/
def firstC : Completion :=
  ⟨some ⟨some 100, some 20, some 120, some ⟨some 5⟩⟩,
   ⟨none, [⟨"call_1", "get_weather_by_city", some []⟩]⟩⟩

/-- Second-call completion: plain text, no tool calls, partial usage. -/
def secC : Completion :=
  ⟨some ⟨some 7, some 3, none, none⟩, ⟨some "It is cold.", []⟩⟩

/-- Second-call completion that itself carries a tool invocation. -/
def secC2 : Completion :=
  ⟨none, ⟨some "Done.", [⟨"call_9", "get_weather_by_city", none⟩]⟩⟩

/-- Oracle for a well-formed two-call turn. -/
def oTool : TurnOracle := ⟨.ok firstC, .ok secC⟩

/-- Oracle whose second call also requests a tool round. -/
def oTool2 : TurnOracle := ⟨.ok firstC, .ok secC2⟩

/-- Oracle whose model calls raise. -/
def oErr : TurnOracle := ⟨.error "APIConnectionError", .error "APIConnectionError"⟩

/-- Oracle with a well-formed first call whose second call raises. -/
def oErr2 : TurnOracle := ⟨.ok firstC, .error "APIConnectionError"⟩

/-- Shape of a turn aborted by a raising second model call: the crash
state already holds the user turn, the assistant tool-call shell and the
tool turns, with the first call's usage folded. -/
lemma doTurn_second_crash (gh : String → Except String GeoData)
    (wh : JVal → JVal → Except String WxData)
    (s : LoopState) (q : String) (o : TurnOracle)
    (first : Completion) (crs : List CallRec) (touts : List Turn) (e : String)
    (h1 : o.first = .ok first)
    (h2 : first.message.tool_calls ≠ [])
    (h3 : runTools gh wh q first.message.tool_calls = .ok (crs, touts))
    (h4 : o.second = .error e) :
    doTurn gh wh s q o = .crash e
      { messages := s.messages ++ [Turn.user q, Turn.assistantCalls crs] ++ touts,
        total_prompt := s.total_prompt + (extract_usage first).prompt,
        total_completion := s.total_completion + (extract_usage first).completion,
        total_reasoning := s.total_reasoning + (extract_usage first).reasoning,
        total_tokens := s.total_tokens + (extract_usage first).total }
      [extract_usage first] := by
  unfold doTurn
  rw [h1]
  simp only [isEmpty_false_of_ne_nil h2, Bool.false_eq_true, if_false, h3, h4, addUsage]
  simp [List.append_assoc]

/-! ## Claims about the conversation state machine -/

/-- C1: on a completed two-call (tool) turn, the transcript slice
appended for the turn is exactly `[user, assistant(tool_calls),
tool × K, assistant(text)]` with nothing interleaved, each tool turn's
`tool_call_id` equal to the id of the corresponding invocation of the
preceding assistant turn, in the same order, one tool turn per
invocation. -/
theorem C1_two_call_transcript (gh : String → Except String GeoData)
    (wh : JVal → JVal → Except String WxData)
    (s : LoopState) (q : String) (o : TurnOracle)
    (first sec : Completion) (crs : List CallRec) (touts : List Turn)
    (h1 : o.first = .ok first)
    (h2 : first.message.tool_calls ≠ [])
    (h3 : runTools gh wh q first.message.tool_calls = .ok (crs, touts))
    (h4 : o.second = .ok sec) :
    doTurn gh wh s q o = .ok
      { messages := s.messages ++ [Turn.user q, Turn.assistantCalls crs] ++ touts
          ++ [Turn.assistantText sec.message.content],
        total_prompt := s.total_prompt + (extract_usage first).prompt + (extract_usage sec).prompt,
        total_completion :=
          s.total_completion + (extract_usage first).completion + (extract_usage sec).completion,
        total_reasoning :=
          s.total_reasoning + (extract_usage first).reasoning + (extract_usage sec).reasoning,
        total_tokens := s.total_tokens + (extract_usage first).total + (extract_usage sec).total }
      [extract_usage first, extract_usage sec] ∧
    crs.map CallRec.id = first.message.tool_calls.map ToolCallMsg.id ∧
    touts.map toolCallIdOf = first.message.tool_calls.map (fun tc => some tc.id) ∧
    touts.length = first.message.tool_calls.length := by
  obtain ⟨hcrs, hids, hfa⟩ := runTools_ok_spec gh wh q _ crs touts h3
  refine ⟨doTurn_tool_path gh wh s q o first sec crs touts h1 h2 h3 h4, ?_, hids, ?_⟩
  · rw [hcrs]
    simp
  · exact hfa.length_eq.symm

/-- Witness for C1: a concrete two-call turn with one invocation. -/
theorem C1_two_call_transcript_witness :
    runTools ghNotFound whProbe "Paris" firstC.message.tool_calls =
      .ok ([⟨"call_1", "get_weather_by_city", [("city", "Paris")]⟩],
           [Turn.tool "call_1" [("city", .s "Paris"), ("error", .s "city_not_found")]]) ∧
    doTurn ghNotFound whProbe initState "Paris" oTool = .ok
      { messages := initState.messages
          ++ [Turn.user "Paris",
              Turn.assistantCalls [⟨"call_1", "get_weather_by_city", [("city", "Paris")]⟩]]
          ++ [Turn.tool "call_1" [("city", .s "Paris"), ("error", .s "city_not_found")]]
          ++ [Turn.assistantText (some "It is cold.")],
        total_prompt := 107, total_completion := 23, total_reasoning := 5, total_tokens := 120 }
      [⟨100, 20, 5, 120⟩, ⟨7, 3, 0, 0⟩] := by
  refine ⟨rfl, ?_⟩
  exact (C1_two_call_transcript ghNotFound whProbe initState "Paris" oTool firstC secC
    _ _ rfl (by decide) rfl rfl).1

/-- C2: the four running totals always equal the component-wise sum of
the usage records folded during the session — whichever path each turn
took — and `extract_usage` never fails, yielding 0 for any absent usage
field, an absent reasoning breakdown, or an absent usage block. -/
theorem C2_usage_totals (gh : String → Except String GeoData)
    (wh : JVal → JVal → Except String WxData)
    (s : LoopState) (ins : List TurnIn) (r : SessionEnd)
    (h : runSession gh wh s [] ins = r) :
    totalsOf r.state = (totalsOf s).add (recSum r.recs) ∧
    (∀ c : Completion, c.usage = none → extract_usage c = ⟨0, 0, 0, 0⟩) ∧
    (∀ (c : Completion) (uo : UsageObj), c.usage = some uo →
      (uo.prompt_tokens = none → (extract_usage c).prompt = 0) ∧
      (uo.completion_tokens = none → (extract_usage c).completion = 0) ∧
      (uo.total_tokens = none → (extract_usage c).total = 0) ∧
      (uo.completion_tokens_details = none → (extract_usage c).reasoning = 0)) := by
  refine ⟨?_, ?_, ?_⟩
  · rw [← h]
    exact runSession_totals gh wh ins s
  · intro c hc
    simp [extract_usage, hc]
  · intro c uo hc
    refine ⟨?_, ?_, ?_, ?_⟩ <;> intro hf <;> simp [extract_usage, hc, hf]

/-- Witness for C2: one two-call turn then an exit command. -/
theorem C2_usage_totals_witness :
    runSession ghNotFound whProbe initState [] [⟨"Paris", oTool⟩, ⟨"exit", oTool⟩] =
      .closed
        { messages := initState.messages
            ++ [Turn.user "Paris",
                Turn.assistantCalls [⟨"call_1", "get_weather_by_city", [("city", "Paris")]⟩]]
            ++ [Turn.tool "call_1" [("city", .s "Paris"), ("error", .s "city_not_found")]]
            ++ [Turn.assistantText (some "It is cold.")],
          total_prompt := 107, total_completion := 23, total_reasoning := 5, total_tokens := 120 }
        [⟨100, 20, 5, 120⟩, ⟨7, 3, 0, 0⟩] ∧
    (⟨107, 23, 5, 120⟩ : UsageRec) =
      (totalsOf initState).add (recSum [⟨100, 20, 5, 120⟩, ⟨7, 3, 0, 0⟩]) := by
  refine ⟨rfl, ?_⟩
  exact (C2_usage_totals ghNotFound whProbe initState [⟨"Paris", oTool⟩, ⟨"exit", oTool⟩]
    _ rfl).1

/-- C3 counterexample: when the first model call raises, the exception
propagates uncaught — the session does not return to accepting input
(the second queued input is never consumed), `conversation_loop`
terminates, and the transcript is left ending in a user turn with no
matching response. -/
theorem C3_counterexample :
    runSession ghNotFound whProbe initState [] [⟨"Tokyo", oErr⟩, ⟨"Paris", oTool⟩] =
      .crashed "APIConnectionError" ⟨[Turn.system sysPrompt, Turn.user "Tokyo"], 0, 0, 0, 0⟩ [] ∧
    ([Turn.system sysPrompt, Turn.user "Tokyo"] : List Turn).getLast? =
      some (Turn.user "Tokyo") :=
  ⟨rfl, rfl⟩

/-- C3 (amended): a raising model completion call — first or second —
is not recovered: the exception escapes `conversation_loop` and the
session terminates without processing any further input.  A raising
first call leaves the transcript ending in the turn's user turn with no
matching response; a raising second call leaves it ending in the
assistant tool-call shell and the tool turns, with the first call's
usage already folded and no final assistant answer appended. -/
theorem C3_model_call_crash (gh : String → Except String GeoData)
    (wh : JVal → JVal → Except String WxData)
    (s : LoopState) (raw q e : String) (o : TurnOracle) (rest : List TurnIn)
    (hc : classify raw = .query q) :
    (o.first = .error e →
      runSession gh wh s [] (⟨raw, o⟩ :: rest) =
        .crashed e { s with messages := s.messages ++ [Turn.user q] } []) ∧
    (∀ (first : Completion) (crs : List CallRec) (touts : List Turn),
      o.first = .ok first →
      first.message.tool_calls ≠ [] →
      runTools gh wh q first.message.tool_calls = .ok (crs, touts) →
      o.second = .error e →
      runSession gh wh s [] (⟨raw, o⟩ :: rest) =
        .crashed e
          { messages := s.messages ++ [Turn.user q, Turn.assistantCalls crs] ++ touts,
            total_prompt := s.total_prompt + (extract_usage first).prompt,
            total_completion := s.total_completion + (extract_usage first).completion,
            total_reasoning := s.total_reasoning + (extract_usage first).reasoning,
            total_tokens := s.total_tokens + (extract_usage first).total }
          [extract_usage first]) := by
  constructor
  · intro hf
    simp only [runSession]
    rw [hc]
    dsimp only
    unfold doTurn
    rw [hf]
    rfl
  · intro first crs touts h1 h2 h3 h4
    simp only [runSession]
    rw [hc]
    dsimp only
    rw [doTurn_second_crash gh wh s q o first crs touts e h1 h2 h3 h4]
    rfl

/-- Witness for C3 at concrete raising oracles, one per call site. -/
theorem C3_model_call_crash_witness :
    classify "Tokyo" = .query "Tokyo" ∧
    oErr.first = .error "APIConnectionError" ∧
    runSession ghNotFound whProbe initState [] [⟨"Tokyo", oErr⟩] =
      .crashed "APIConnectionError"
        ⟨[Turn.system sysPrompt, Turn.user "Tokyo"], 0, 0, 0, 0⟩ [] ∧
    oErr2.second = .error "APIConnectionError" ∧
    runSession ghNotFound whProbe initState [] [⟨"Paris", oErr2⟩] =
      .crashed "APIConnectionError"
        ⟨[Turn.system sysPrompt, Turn.user "Paris",
          Turn.assistantCalls [⟨"call_1", "get_weather_by_city", [("city", "Paris")]⟩],
          Turn.tool "call_1" [("city", .s "Paris"), ("error", .s "city_not_found")]],
          100, 20, 5, 120⟩
        [⟨100, 20, 5, 120⟩] := by
  refine ⟨rfl, rfl, ?_, rfl, ?_⟩
  · exact (C3_model_call_crash ghNotFound whProbe initState "Tokyo" "Tokyo"
      "APIConnectionError" oErr [] rfl).1 rfl
  · exact (C3_model_call_crash ghNotFound whProbe initState "Paris" "Paris"
      "APIConnectionError" oErr2 [] rfl).2 firstC _ _ rfl (by decide) rfl rfl

/-- C7: tool invocations carried by the second model call are ignored —
the turn's outcome is identical to the one with those invocations
stripped (no dispatch, no third call), and the second call's textual
content is appended as the final assistant turn of the round. -/
theorem C7_second_call_tools_ignored (gh : String → Except String GeoData)
    (wh : JVal → JVal → Except String WxData)
    (s : LoopState) (q : String) (o : TurnOracle)
    (first sec : Completion) (crs : List CallRec) (touts : List Turn)
    (h1 : o.first = .ok first)
    (h2 : first.message.tool_calls ≠ [])
    (h3 : runTools gh wh q first.message.tool_calls = .ok (crs, touts))
    (h4 : o.second = .ok sec) :
    doTurn gh wh s q o =
      doTurn gh wh s q ⟨o.first, .ok ⟨sec.usage, ⟨sec.message.content, []⟩⟩⟩ ∧
    ∃ s' : LoopState,
      doTurn gh wh s q o = .ok s' [extract_usage first, extract_usage sec] ∧
      s'.messages.getLast? = some (Turn.assistantText sec.message.content) := by
  have hA := doTurn_tool_path gh wh s q o first sec crs touts h1 h2 h3 h4
  have hB := doTurn_tool_path gh wh s q ⟨o.first, .ok ⟨sec.usage, ⟨sec.message.content, []⟩⟩⟩
    first ⟨sec.usage, ⟨sec.message.content, []⟩⟩ crs touts h1 h2 h3 rfl
  refine ⟨hA.trans hB.symm, ⟨_, hA, ?_⟩⟩
  rw [List.getLast?_concat]

/-- Witness for C7: a second call carrying a tool invocation yields the
same outcome as the stripped one. -/
theorem C7_second_call_tools_ignored_witness :
    doTurn ghNotFound whProbe initState "Paris" oTool2 =
      doTurn ghNotFound whProbe initState "Paris" ⟨.ok firstC, .ok ⟨none, ⟨some "Done.", []⟩⟩⟩ :=
  (C7_second_call_tools_ignored ghNotFound whProbe initState "Paris" oTool2 firstC secC2
    _ _ rfl (by decide) rfl rfl).1

/-- C9: before dispatch, a tool invocation whose parsed arguments omit
the key `city` is backfilled with the turn's user utterance (appended as
`("city", q)`); arguments already containing `city` are left unchanged;
the dispatched argument mapping is exactly what the assistant turn
records and what `execute_tool` receives. -/
theorem C9_city_backfill (gh : String → Except String GeoData)
    (wh : JVal → JVal → Except String WxData)
    (q : String) (tcs : List ToolCallMsg) (crs : List CallRec) (touts : List Turn)
    (h : runTools gh wh q tcs = .ok (crs, touts)) :
    crs.map CallRec.args = tcs.map (normArgs q) ∧
    (∀ tc : ToolCallMsg,
      ((tc.arguments.getD []).find? (fun p => p.1 == "city")).isSome = false →
        normArgs q tc = tc.arguments.getD [] ++ [("city", q)]) ∧
    (∀ tc : ToolCallMsg,
      ((tc.arguments.getD []).find? (fun p => p.1 == "city")).isSome = true →
        normArgs q tc = tc.arguments.getD []) ∧
    List.Forall₂ (fun (tc : ToolCallMsg) (t : Turn) => ∃ r,
      execute_tool gh wh tc.fname (normArgs q tc) = .ok r ∧ t = Turn.tool tc.id r) tcs touts := by
  obtain ⟨hcrs, _, hfa⟩ := runTools_ok_spec gh wh q tcs crs touts h
  refine ⟨by rw [hcrs]; simp, ?_, ?_, hfa⟩
  · intro tc htc
    simp [normArgs, setdefault, htc]
  · intro tc htc
    simp [normArgs, setdefault, htc]

/-- Witness for C9: model emits `{}`, user typed "Tokyo", dispatch gets
`{"city": "Tokyo"}`. -/
theorem C9_city_backfill_witness :
    runTools ghNotFound whProbe "Tokyo" [⟨"call_1", "get_weather_by_city", some []⟩] =
      .ok ([⟨"call_1", "get_weather_by_city", [("city", "Tokyo")]⟩],
           [Turn.tool "call_1" [("city", .s "Tokyo"), ("error", .s "city_not_found")]]) ∧
    ([⟨"call_1", "get_weather_by_city", [("city", "Tokyo")]⟩] : List CallRec).map CallRec.args =
      [(⟨"call_1", "get_weather_by_city", some []⟩ : ToolCallMsg)].map (normArgs "Tokyo") := by
  refine ⟨rfl, ?_⟩
  exact (C9_city_backfill ghNotFound whProbe "Tokyo"
    [⟨"call_1", "get_weather_by_city", some []⟩] _ _ rfl).1

/-- C10: console input is stripped and command matching is
case-insensitive on the stripped text: a blank (or whitespace-only) line
or any line whose stripped lowercase form is a leave token closes the
session without appending a turn; a help token leaves the whole loop
state (transcript and totals) unchanged and continues. -/
theorem C10_console_commands (gh : String → Except String GeoData)
    (wh : JVal → JVal → Except String WxData)
    (s : LoopState) (acc : List UsageRec) (raw : String) (o : TurnOracle)
    (rest : List TurnIn) :
    ((pyStrip raw = "" ∨ pyLower (pyStrip raw) ∈ exitTokens) →
      runSession gh wh s acc (⟨raw, o⟩ :: rest) = .closed s acc) ∧
    (pyLower (pyStrip raw) ∈ helpTokens →
      runSession gh wh s acc (⟨raw, o⟩ :: rest) = runSession gh wh s acc rest) := by
  constructor
  · intro h
    have hc : classify raw = .quitSession := by
      unfold classify
      rcases h with h | h
      · rw [if_pos h]
      · by_cases hb : pyStrip raw = ""
        · rw [if_pos hb]
        · rw [if_neg hb, if_pos h]
    simp only [runSession]
    rw [hc]
  · intro h
    have hb : pyStrip raw ≠ "" := by
      intro hb
      rw [hb] at h
      revert h
      decide
    have hne : pyLower (pyStrip raw) ∉ exitTokens := by
      have h3 : pyLower (pyStrip raw) = "/help" ∨ pyLower (pyStrip raw) = "help" ∨
          pyLower (pyStrip raw) = "?" := by
        simpa [helpTokens] using h
      rcases h3 with h3 | h3 | h3 <;> rw [h3] <;> decide
    have hc : classify raw = .helpMenu := by
      unfold classify
      rw [if_neg hb, if_neg hne, if_pos h]
    simp only [runSession]
    rw [hc]

/-- Witness for C10 at concrete mixed-case, padded, blank and help
inputs. -/
theorem C10_console_commands_witness :
    runSession ghNotFound whProbe initState [] [⟨"EXIT", oTool⟩] = .closed initState [] ∧
    runSession ghNotFound whProbe initState [] [⟨"  Quit ", oTool⟩] = .closed initState [] ∧
    runSession ghNotFound whProbe initState [] [⟨"   ", oTool⟩] = .closed initState [] ∧
    runSession ghNotFound whProbe initState [] [⟨"?", oTool⟩, ⟨":q", oTool⟩] =
      .closed initState [] := by
  refine ⟨?_, ?_, ?_, ?_⟩
  · exact (C10_console_commands ghNotFound whProbe initState [] "EXIT" oTool []).1
      (Or.inr (by decide))
  · exact (C10_console_commands ghNotFound whProbe initState [] "  Quit " oTool []).1
      (Or.inr (by decide))
  · exact (C10_console_commands ghNotFound whProbe initState [] "   " oTool []).1
      (Or.inl (by decide))
  · rw [(C10_console_commands ghNotFound whProbe initState [] "?" oTool [⟨":q", oTool⟩]).2
      (by decide)]
    exact (C10_console_commands ghNotFound whProbe initState [] ":q" oTool []).1
      (Or.inr (by decide))

end WeatherAgent
